/-
Verification of the pyznap core (src/pyznap/pyzfs.py) against its
natural-language specification.

The definitions below are a shallow embedding of the Python source:
pure command construction becomes Lean list construction, Python integers
become `Int`/`Nat`, fallible code returns `Except`, external invocations
are modelled by explicit environments (oracles) and the commands that the
code issues are collected in explicit lists.  Each definition carries a
doc comment pointing at the source code it embeds.
-/
import Mathlib

set_option maxHeartbeats 1000000

/-! ## Python string primitives used by the source -/

/-- Python whitespace characters stripped by `int(...)` (`str.strip`),
restricted to the ASCII range that can occur in tool output. -/
def isPyWs (c : Char) : Bool :=
  c = ' ' || c = Char.ofNat 9 || c = Char.ofNat 10 || c = Char.ofNat 13 ||
  c = Char.ofNat 11 || c = Char.ofNat 12

/-- Python `str.strip()` on a character list: drop whitespace from both ends. -/
def pyStrip (l : List Char) : List Char :=
  ((l.dropWhile isPyWs).reverse.dropWhile isPyWs).reverse

/-- Python `str.split(sep)` for a single-character separator `sep`
(the source only uses `split(',')` and `split(' ')`): split at every
occurrence, keeping empty pieces, so `"".split(sep) == ['']`. -/
def pySplitChar (sep : Char) : List Char → List (List Char)
  | [] => [[]]
  | c :: rest =>
    let r := pySplitChar sep rest
    if c = sep then [] :: r
    else
      match r with
      | h :: t => (c :: h) :: t
      | [] => [[c]]

/-- Python `str.split(sep)` lifted to `String`. -/
def pySplit (sep : Char) (s : String) : List String :=
  (pySplitChar sep s.data).map List.asString

/-- Digit-sequence parser of Python `int(...)`: one or more ASCII digits with
single underscores allowed between digits (accumulator `acc` holds the value
of the digits already consumed). -/
def pyDigitsGo (acc : Nat) : List Char → Option Nat
  | [] => some acc
  | c :: rest =>
    if c.isDigit then pyDigitsGo (acc * 10 + (c.toNat - 48)) rest
    else if c = Char.ofNat 95 then
      match rest with
      | d :: rest2 =>
        if d.isDigit then pyDigitsGo (acc * 10 + (d.toNat - 48)) rest2 else none
      | [] => none
    else none

/-- Unsigned part of Python `int(...)`: must start with a digit. -/
def pyIntCore : List Char → Option Nat
  | [] => none
  | c :: rest => if c.isDigit then pyDigitsGo (c.toNat - 48) rest else none

/-- Python `int(s)`: strip whitespace, optional sign, digit sequence;
`none` models the `ValueError` raised on any malformed input. -/
def pyInt (s : String) : Option Int :=
  match pyStrip s.data with
  | [] => none
  | c :: rest =>
    if c = '+' then (pyIntCore rest).map Int.ofNat
    else if c = '-' then (pyIntCore rest).map (fun n => -(Int.ofNat n))
    else (pyIntCore (c :: rest)).map Int.ofNat

/-- Characters that `shlex.quote` leaves unquoted
(ASCII word characters plus @ % + = : , . slash and dash). -/
def shlexSafe (c : Char) : Bool :=
  c.isAlphanum || c = Char.ofNat 95 || c = '@' || c = '%' || c = '+' ||
  c = '=' || c = ':' || c = ',' || c = '.' || c = '/' || c = '-'

/-- Python `shlex.quote(s)` as used by `pyzfs.py` on dataset names:
empty string becomes a pair of single quotes, a fully safe string is
returned unchanged, anything else is wrapped in single quotes with every
embedded single quote replaced by the five-character escape. -/
def pyShlexQuote (s : String) : String :=
  if s = "" then "\x27\x27"
  else if s.data.all shlexSafe then s
  else
    "\x27" ++
      List.asString (s.data.flatMap (fun c =>
        if c = Char.ofNat 39 then [Char.ofNat 39, '"', Char.ofNat 39, '"', Char.ofNat 39]
        else [c])) ++
    "\x27"

/-! ## Endpoints and transfer pipelines (`ZFSSnapshot.send`, `receive`) -/

/-- Modelled from the spec: the remote-endpoint collaborator (the `ssh`
objects of `pyzfs.py`, whose class is not under `src/`).  Per §6 of the
spec an endpoint supplies optional compression/decompression command
vectors (`none` models Python `None`) and booleans for the availability of
the buffering tool (`mbuffer`) and the progress-metering tool (`pv`). -/
structure Endpoint where
  compress : Option (List String)
  decompress : Option (List String)
  hasMbuffer : Bool
  hasPv : Bool
deriving DecidableEq, Repr

/-- Python truthiness of an optional command vector: `None` and the empty
list are falsy, a non-empty list is truthy. -/
def pyTruthyList : Option (List String) → Bool
  | none => false
  | some [] => false
  | some (_ :: _) => true

/-- Transfer topology: remote iff either endpoint is non-local, embedding
the Python tests `(self.ssh or ssh_dest)` / `(ssh_source or ssh)`. -/
def isRemote (a b : Option Endpoint) : Bool := a.isSome || b.isSome

/-- Embeds `MBUFFER` of pyzfs.py line 24:
`['mbuffer', '-q', '-s', '128K', '-m', '{:d}M'.format(mem)]`.  The remote
endpoints' buffering command has the same shape (Modelled from the spec:
a buffering tool with quiet mode, fixed block size, configurable memory
size). -/
def mbufferCmd (mem : Int) : List String :=
  ["mbuffer", "-q", "-s", "128K", "-m", toString mem ++ "M"]

/-- Embeds `PV` of pyzfs.py line 30 plus the non-tty widening of
`ZFSSnapshot.send` lines 498-501: `['pv','-f','-w','100','-s',str(size)]`,
extended by `['-D','60','-i','60']` when stdout is not a terminal. -/
def pvCmdFull (size : Int) (atty : Bool) : List String :=
  ["pv", "-f", "-w", "100", "-s", toString size] ++
    (if atty then [] else ["-D", "60", "-i", "60"])

/-- Embeds the `mbuff_size` computation of `send` (line 450) and `receive`
(line 171): `min(max(stream_size // 1024**2, 1), 256 if remote else 512)`.
Python `//` is floor division, hence `Int.fdiv`. -/
def mbuffSize (size : Int) (remote : Bool) : Int :=
  min (max (Int.fdiv size 1048576) 1) (if remote then 256 else 512)

/-- The clamp function in the words of the spec (§4.5):
`clamp(x, lo, hi) = min(max(x, lo), hi)`. -/
def specClamp (x lo hi : Int) : Int := min (max x lo) hi

/-- Embeds the compression negotiation of `ZFSSnapshot.send` lines 460-466:
both endpoints remote → the common vector if the two agree, else `None`;
exactly one remote → that endpoint's vector; both local → `None`. -/
def sendCompressSelect (sshSelf sshDest : Option Endpoint) : Option (List String) :=
  match sshSelf, sshDest with
  | some s, some d => if s.compress = d.compress then s.compress else none
  | some s, none => s.compress
  | none, some d => d.compress
  | none, none => none

/-- Embeds the decompression negotiation of `receive` lines 181-187,
mirroring `sendCompressSelect` with the decompress vectors. -/
def recvDecompressSelect (sshSource ssh : Option Endpoint) : Option (List String) :=
  match sshSource, ssh with
  | some s, some d => if s.decompress = d.decompress then s.decompress else none
  | some s, none => s.decompress
  | none, some d => d.decompress
  | none, none => none

/-- Availability of `mbuffer` on the send side (lines 453-458): the source
endpoint's tool if remote, the local probe result otherwise. -/
def sendMbufAvail (sshSelf : Option Endpoint) (localMb : Bool) : Bool :=
  match sshSelf with
  | some e => e.hasMbuffer
  | none => localMb

/-- Availability of `pv` on the send side (lines 453-458). -/
def sendPvAvail (sshSelf : Option Endpoint) (localPv : Bool) : Bool :=
  match sshSelf with
  | some e => e.hasPv
  | none => localPv

/-- Guard of the send-side mbuffer stage (line 494):
`if mbuffer and stream_size >= 1024**2`. -/
def sendMbufCond (sshSelf : Option Endpoint) (localMb : Bool) (size : Int) : Bool :=
  sendMbufAvail sshSelf localMb && decide (1048576 ≤ size)

/-- Guard of the send-side pv stage (line 498):
`if pv and stream_size >= 1024**2`. -/
def sendPvCond (sshSelf : Option Endpoint) (localPv : Bool) (size : Int) : Bool :=
  sendPvAvail sshSelf localPv && decide (1048576 ≤ size)

/-- Embeds the `zfs send` command construction of lines 469-491. -/
def zfsSendCmd (selfName : String) (base : Option String)
    (intermediates replicate properties deduplicate raw : Bool) : List String :=
  ["zfs", "send"] ++
  (if replicate then ["-R"] else []) ++
  (if properties then ["-p"] else []) ++
  (if deduplicate then ["-D"] else []) ++
  (if raw then ["-w"] else []) ++
  (match base with
   | some b => (if intermediates then ["-I"] else ["-i"]) ++ [pyShlexQuote b]
   | none => []) ++
  [pyShlexQuote selfName]

/-- Send-side buffering stage chunk (lines 494-496): one mbuffer segment when
the guard holds, nothing otherwise. -/
def sendMbufChunk (sshSelf sshDest : Option Endpoint) (localMb : Bool) (size : Int) :
    List (List String) :=
  if sendMbufCond sshSelf localMb size
  then [mbufferCmd (mbuffSize size (isRemote sshSelf sshDest))]
  else []

/-- Send-side metering stage chunk (lines 498-503). -/
def sendPvChunk (sshSelf : Option Endpoint) (localPv : Bool) (size : Int) (atty : Bool) :
    List (List String) :=
  if sendPvCond sshSelf localPv size then [pvCmdFull size atty] else []

/-- Send-side compression stage chunk (lines 505-507):
`if compress and not raw: cmd += ['|'] + compress` — present iff the
negotiated vector is truthy and the send is not raw. -/
def sendCompressChunk (sshSelf sshDest : Option Endpoint) (raw : Bool) :
    List (List String) :=
  match sendCompressSelect sshSelf sshDest, raw with
  | some (c :: cs), false => [c :: cs]
  | _, _ => []

/-- The source pipeline up to (excluding) the compression stage, in the
order the code appends the segments: `zfs send`, then mbuffer, then pv. -/
def sendPreCompress (selfName : String) (sshSelf sshDest : Option Endpoint)
    (base : Option String) (intermediates replicate properties deduplicate raw : Bool)
    (size : Int) (atty localMb localPv : Bool) : List (List String) :=
  [zfsSendCmd selfName base intermediates replicate properties deduplicate raw] ++
  sendMbufChunk sshSelf sshDest localMb size ++
  sendPvChunk sshSelf localPv size atty

/-- Embeds the full source pipeline built by `ZFSSnapshot.send`
(lines 443-510) as the ordered list of pipe segments; the code joins these
segments with `'|'` and hands the single string to the endpoint's shell.
`size` is the value returned by `self.stream_size(base)`, `atty` is
`sys.stdout.isatty()`, and `localMb`/`localPv` are the module-level
`MBUFFER`/`PV` probe results. -/
def sendPipeline (selfName : String) (sshSelf sshDest : Option Endpoint)
    (base : Option String) (intermediates replicate properties deduplicate raw : Bool)
    (size : Int) (atty localMb localPv : Bool) : List (List String) :=
  sendPreCompress selfName sshSelf sshDest base intermediates replicate properties
      deduplicate raw size atty localMb localPv ++
  sendCompressChunk sshSelf sshDest raw

/-- Embeds the `zfs receive` command construction of `receive`
lines 190-204. -/
def zfsReceiveCmd (name : String) (appendName appendPath force nomount : Bool) :
    List String :=
  ["zfs", "receive"] ++
  (if appendName then ["-e"] else if appendPath then ["-d"] else []) ++
  (if force then ["-F"] else []) ++
  (if nomount then ["-u"] else []) ++
  [pyShlexQuote name]

/-- Availability of `mbuffer` on the receive side (lines 174-179): the
destination endpoint's tool if remote, the local probe result otherwise. -/
def recvMbufAvail (ssh : Option Endpoint) (localMb : Bool) : Bool :=
  match ssh with
  | some e => e.hasMbuffer
  | none => localMb

/-- Guard of the receive-side mbuffer stage (line 211):
`if (ssh_source or ssh) and mbuffer and stream_size >= 1024**2`. -/
def recvMbufCond (sshSource ssh : Option Endpoint) (localMb : Bool) (size : Int) : Bool :=
  (sshSource.isSome || ssh.isSome) && recvMbufAvail ssh localMb &&
    decide (1048576 ≤ size)

/-- Receive-side buffering stage chunk (lines 210-213). -/
def recvMbufChunk (sshSource ssh : Option Endpoint) (localMb : Bool) (size : Int) :
    List (List String) :=
  if recvMbufCond sshSource ssh localMb size
  then [mbufferCmd (mbuffSize size (isRemote sshSource ssh))]
  else []

/-- Receive-side decompression stage chunk (lines 207-209):
`if decompress and not raw: cmd = decompress + ['|'] + cmd`. -/
def recvDecompChunk (sshSource ssh : Option Endpoint) (raw : Bool) :
    List (List String) :=
  match recvDecompressSelect sshSource ssh, raw with
  | some (c :: cs), false => [c :: cs]
  | _, _ => []

/-- Embeds the destination pipeline built by `receive` (lines 165-218) as
the ordered list of pipe segments.  The code prepends decompression to the
`zfs receive` command and then prepends mbuffer, so the final order is
mbuffer, decompression, receive. -/
def receivePipeline (name : String) (sshSource ssh : Option Endpoint)
    (appendName appendPath force nomount : Bool) (size : Int) (raw : Bool)
    (localMb : Bool) : List (List String) :=
  recvMbufChunk sshSource ssh localMb size ++
  recvDecompChunk sshSource ssh raw ++
  [zfsReceiveCmd name appendName appendPath force nomount]

/-! ## Property store and dataset entities -/

/-- Python exceptions raised by the embedded code paths. -/
inductive PyErr where
  | typeError
  | attributeError
  | keyError
  | valueError
  | operationNotAllowed
deriving DecidableEq, Repr

/-- A dataset's fetched property table: associates a property name with the
pair (value, source) that `findprops` parses out of `zfs get` output. -/
abbrev PropTable := List (String × String × String)

/-- A dataset entity handle as constructed by `pyzfs.py`: the path string
plus (as the oracle for its external property fetches) its property table.
Two handles may carry different paths over the same table, modelling a
renamed dataset. -/
structure DatasetHandle where
  name : String
  props : PropTable
deriving DecidableEq, Repr

/-- Embeds `ZFSDataset.getprop` (line 364-365):
`findprops(...)[self.name].get(prop, None)` — a dictionary lookup that
returns `None` when the property is absent from the table. -/
def getprop (props : PropTable) (prop : String) : Option (String × String) :=
  List.lookup prop props

/-- Embeds `ZFSDataset.getpropval` (lines 367-369):
`value = self.getprop(prop)[0]; return default if value == '-' else value`.
When `getprop` gives `None`, the subscript `[0]` raises `TypeError`; the
textual sentinel `-` is replaced by the default. -/
def getpropval (props : PropTable) (prop : String) (default : Option String) :
    Except PyErr (Option String) :=
  match getprop props prop with
  | none => .error .typeError
  | some (v, _) => .ok (if v = "-" then default else some v)

/-- Embeds `ZFSDataset.guid` (lines 240-241): `self.getpropval('guid')`
with the implicit default `None`. -/
def dsGuid (props : PropTable) : Except PyErr (Option String) :=
  getpropval props "guid" none

/-- Embeds `ZFSDataset.__eq__` (lines 233-234) applied to two dataset
handles: `self.guid() == value.guid()`, comparing the externally fetched
GUID values; the path strings play no part. -/
def dsEqPy (d1 d2 : DatasetHandle) : Except PyErr Bool :=
  match dsGuid d1.props with
  | .error e => .error e
  | .ok g1 =>
    match dsGuid d2.props with
    | .error e => .error e
    | .ok g2 => .ok (decide (g1 = g2))

/-- The `zfs get` command issued by `findprops(name, max_depth=0,
props=[prop])` (lines 66-94): `['zfs','get','-H','-p','-d','0',prop,name]`. -/
def findpropsCmd (prop name : String) : List String :=
  ["zfs", "get", "-H", "-p", "-d", "0", prop, name]

/-- Embeds `ZFSDataset.promote` (lines 328-335) together with the calls it
makes: `origin()` (lines 323-326, a `getpropval('origin')` followed by
`open` on a truthy result) and the comparison `self.origin() == None`.
`resolver` is the oracle giving the property table `findprops` would fetch
for another dataset path.  The result pairs the Python outcome with the
ordered list of external commands issued.  When the origin exists,
`ZFSDataset.__eq__` evaluates `self.guid()` on the origin handle (issuing a
`zfs get guid` command) and then `value.guid()` on `None`, which raises
`AttributeError`, so the `zfs promote` command is never reached. -/
def promoteRun (self : DatasetHandle) (resolver : String → PropTable) :
    Except PyErr Unit × List (List String) :=
  let c0 := findpropsCmd "origin" self.name
  match getpropval self.props "origin" none with
  | .error e => (.error e, [c0])
  | .ok none => (.ok (), [c0])
  | .ok (some o) =>
    if o = "" then (.ok (), [c0])
    else
      let c1 := findpropsCmd "type" o
      match List.lookup "type" (resolver o) with
      | none => (.error .keyError, [c0, c1])
      | some (t, _) =>
        if t = "volume" || t = "filesystem" || t = "snapshot" then
          let c2 := findpropsCmd "guid" o
          match getpropval (resolver o) "guid" none with
          | .error e => (.error e, [c0, c1, c2])
          | .ok _ => (.error .attributeError, [c0, c1, c2])
        else (.error .valueError, [c0, c1])

/-- Python comparison of a list with a string (`clones == ''` on line 438):
always `False`, whatever the operands hold. -/
def pyListEqStr (_ : List String) (_ : String) : Bool := false

/-- Embeds `ZFSSnapshot.clones` (lines 435-441) down to the list of clone
names it would pass to `open`: `self.getpropval('clones').split(',')`
raises `AttributeError` when the sentinel made the value `None`; the guard
`if clones == ''` compares a list with a string and never fires. -/
def snapClones (props : PropTable) : Except PyErr (List String) :=
  match getpropval props "clones" none with
  | .error e => .error e
  | .ok none => .error .attributeError
  | .ok (some v) =>
    let clones := pySplit ',' v
    if pyListEqStr clones "" then .ok [] else .ok clones

/-! ## Kind-restricted entity methods -/

/-- The three entity classes of the model (`ZFSFilesystem`, `ZFSVolume`,
`ZFSSnapshot`). -/
inductive DsClass where
  | filesystem
  | volume
  | snapshot
deriving DecidableEq, Repr

/-- Embeds the `zfs list` command built by `find` (lines 37-61) for
`path = name`, depth `maxDepth` (`none` meaning unlimited `-r`) and a type
filter. -/
def findCmd (name : String) (maxDepth : Option Nat) (types : List String) :
    List String :=
  ["zfs", "list", "-H"] ++
  (match maxDepth with
   | none => ["-r"]
   | some d => ["-d", toString d]) ++
  (if types.isEmpty then [] else ["-t", String.intercalate "," types]) ++
  ["-o", "name,type"] ++
  (if name = "" then [] else [name])

/-- Embeds `snapshots()` with method resolution over the class hierarchy:
`ZFSSnapshot.snapshots` (lines 413-414) raises `OperationNotAllowedError`
before any command, the inherited `ZFSDataset.snapshots` (lines 249-250)
issues one `zfs list` command.  The result pairs the Python outcome with
the commands issued. -/
def dsSnapshots (cls : DsClass) (name : String) (maxDepth : Option Nat) :
    Except PyErr Unit × List (List String) :=
  match cls with
  | .snapshot => (.error .operationNotAllowed, [])
  | _ => (.ok (), [findCmd name maxDepth ["snapshot"]])

/-- Embeds `snapshot(snapname, recursive, props)` with method resolution:
`ZFSSnapshot.snapshot` (lines 416-417) raises `OperationNotAllowedError`
before any command, the inherited `ZFSDataset.snapshot` (lines 288-302)
issues one `zfs snapshot` command. -/
def dsSnapshotOp (cls : DsClass) (name snapname : String) (recursive : Bool)
    (props : List (String × String)) : Except PyErr Unit × List (List String) :=
  match cls with
  | .snapshot => (.error .operationNotAllowed, [])
  | _ =>
    (.ok (),
     [["zfs", "snapshot"] ++
      (if recursive then ["-r"] else []) ++
      (props.map (fun kv => ["-o", kv.1 ++ "=" ++ kv.2])).flatten ++
      [name ++ "@" ++ snapname]])

/-- Embeds `filesystems()` with method resolution: `ZFSVolume.filesystems`
(lines 391-392) raises `OperationNotAllowedError` before any command, the
inherited `ZFSDataset.filesystems` (lines 243-244) issues one `zfs list`
command (whose first result row is then dropped). -/
def dsFilesystems (cls : DsClass) (name : String) (maxDepth : Option Nat) :
    Except PyErr Unit × List (List String) :=
  match cls with
  | .volume => (.error .operationNotAllowed, [])
  | _ => (.ok (), [findCmd name maxDepth ["filesystem"]])

/-- Embeds `volumes()` with method resolution: `ZFSVolume.volumes`
(lines 394-395) raises `OperationNotAllowedError` before any command, the
inherited `ZFSDataset.volumes` (lines 246-247) issues one `zfs list`
command. -/
def dsVolumes (cls : DsClass) (name : String) (maxDepth : Option Nat) :
    Except PyErr Unit × List (List String) :=
  match cls with
  | .volume => (.error .operationNotAllowed, [])
  | _ => (.ok (), [findCmd name maxDepth ["volume"]])

/-! ## Stream size estimator (`ZFSSnapshot.stream_size`) -/

/-- Outcome of one `check_output` invocation of the dry-run send: the three
exception classes caught on line 534 (`DatasetNotFoundError`,
`DatasetBusyError`, `subprocess.CalledProcessError`) or the parsed tabular
output (records of tab-separated fields). -/
inductive InvokeResult where
  | notFound
  | busy
  | procError
  | ok (out : List (List String))
deriving DecidableEq, Repr

/-- State of one `ZFSSnapshot` instance relevant to `stream_size`:
`cache` is `none` while the `stream_cache` attribute does not exist yet and
otherwise holds the dictionary as an association list; `invocations` counts
the external dry-run invocations performed so far (the instrument the spec
asks for to observe re-invocation). -/
structure SnapCache where
  cache : Option (List (String × Int))
  invocations : Nat
deriving DecidableEq, Repr

/-- The fresh state of a newly constructed snapshot entity. -/
def initSnap : SnapCache := ⟨none, 0⟩

/-- Python dictionary assignment `d[k] = v` on an association list:
overwrite the existing binding or append a new one. -/
def dictSet (l : List (String × Int)) (k : String) (v : Int) :
    List (String × Int) :=
  match l with
  | [] => [(k, v)]
  | (a, b) :: t => if a = k then (k, v) :: t else (a, b) :: dictSet t k v

/-- Embeds the output parsing of `stream_size` (lines 537-543):
`out = out[-1][-1]; size = int(out.split(' ')[-1])`; `none` models the
caught `IndexError`/`ValueError`. -/
def parseStreamOut (out : List (List String)) : Option Int :=
  match out.getLast? with
  | none => none
  | some row =>
    match row.getLast? with
    | none => none
    | some field =>
      match (pySplit ' ' field).getLast? with
      | none => none
      | some s => pyInt s

/-- The invocation-and-parse tail of `stream_size` (lines 524-543): bump the
invocation counter, return 0 on any caught error, cache and return the
parsed size on success, return 0 (leaving the cache as it stands) on a
parse failure. -/
def streamSizeCore (env : Nat → InvokeResult) (key : String) (st : SnapCache) :
    Int × SnapCache :=
  let st1 : SnapCache := ⟨st.cache, st.invocations + 1⟩
  match env st.invocations with
  | .ok out =>
    match parseStreamOut out with
    | some n => (n, ⟨some (dictSet (st1.cache.getD []) key n), st1.invocations⟩)
    | none => (0, st1)
  | _ => (0, st1)

/-- Embeds `ZFSSnapshot.stream_size` (lines 515-543) over an invocation
oracle `env` (the outcome of the n-th external dry-run invocation) and
`key = str(base)`.  First call ever: create the empty cache and proceed.
Cache hit: return the cached value without invoking.  Cache miss: pre-seed
the key with 0 and proceed. -/
def streamSize (env : Nat → InvokeResult) (key : String) (st : SnapCache) :
    Int × SnapCache :=
  match st.cache with
  | none => streamSizeCore env key ⟨some [], st.invocations⟩
  | some c =>
    match List.lookup key c with
    | some v => (v, st)
    | none => streamSizeCore env key ⟨some (dictSet c key 0), st.invocations⟩

/-! ## Claim-side conditions (stated from the spec's words, for comparison
with the code-side definitions above) -/

/-- The compression command vector of an endpoint as the spec sees it: a
local endpoint (no remote-transport collaborator) has none. -/
def epCompressVec : Option Endpoint → Option (List String)
  | none => none
  | some e => e.compress

/-- The decompression command vector of an endpoint as the spec sees it. -/
def epDecompressVec : Option Endpoint → Option (List String)
  | none => none
  | some e => e.decompress

/-- The compression-stage condition exactly as claim C2 states it: the
transfer is remote, raw is false, and the source and destination
endpoints' compression command vectors are both non-empty and equal. -/
def claimC2Cond (a b : Option Endpoint) (raw : Bool) : Bool :=
  isRemote a b && !raw &&
    (match epCompressVec a, epCompressVec b with
     | some v, some w => decide (v = w) && !v.isEmpty
     | _, _ => false)

/-- The decompression-stage condition exactly as claim C2 states it for
the destination pipeline (mirror of `claimC2Cond`). -/
def claimC2CondD (a b : Option Endpoint) (raw : Bool) : Bool :=
  isRemote a b && !raw &&
    (match epDecompressVec a, epDecompressVec b with
     | some v, some w => decide (v = w) && !v.isEmpty
     | _, _ => false)

/-- The amended compression-stage condition: raw is false and the
effective vector is non-empty, where the effective vector is the common
vector when both endpoints are remote and their vectors are equal, nothing
when both are remote and their vectors differ, the single remote
endpoint's vector when exactly one endpoint is remote, and nothing when
both are local. -/
def claimC2AmendedCond (a b : Option Endpoint) (raw : Bool) : Bool :=
  !raw &&
    (match a, b with
     | some s, some d => decide (s.compress = d.compress) && pyTruthyList s.compress
     | some s, none => pyTruthyList s.compress
     | none, some d => pyTruthyList d.compress
     | none, none => false)

/-- The amended decompression-stage condition for the destination
pipeline (mirror of `claimC2AmendedCond` with decompression vectors). -/
def claimC2AmendedCondD (a b : Option Endpoint) (raw : Bool) : Bool :=
  !raw &&
    (match a, b with
     | some s, some d => decide (s.decompress = d.decompress) && pyTruthyList s.decompress
     | some s, none => pyTruthyList s.decompress
     | none, some d => pyTruthyList d.decompress
     | none, none => false)

/-- Cache-miss predicate for `streamSize`: the `stream_cache` attribute is
absent or does not hold the key. -/
def cacheMiss (key : String) (st : SnapCache) : Bool :=
  match st.cache with
  | none => true
  | some c => (List.lookup key c).isNone

/-- A `zfs promote` command (3 elements) is never a `findprops` query
(8 elements). -/
lemma promoteCmd_ne_findprops (m p n : String) :
    ["zfs", "promote", m] ≠ findpropsCmd p n := by
  intro h
  have := congrArg List.length h
  simp [findpropsCmd] at this

/-- Behaviour of the invocation-and-parse tail of `stream_size` on each
possible invocation outcome. -/
lemma streamSizeCore_spec (env : Nat → InvokeResult) (key : String) (st : SnapCache) :
    (env st.invocations = .notFound → (streamSizeCore env key st).1 = 0) ∧
    (env st.invocations = .busy → (streamSizeCore env key st).1 = 0) ∧
    (env st.invocations = .procError → (streamSizeCore env key st).1 = 0) ∧
    (∀ out, env st.invocations = .ok out → parseStreamOut out = none →
      (streamSizeCore env key st).1 = 0) ∧
    (∀ out n, env st.invocations = .ok out → parseStreamOut out = some n →
      (streamSizeCore env key st).1 = n) := by
  refine ⟨fun h => ?_, fun h => ?_, fun h => ?_, fun out h hp => ?_, fun out n h hp => ?_⟩ <;>
    simp [streamSizeCore, h]
  · simp [hp]
  · simp [hp]

/-! ## Claim theorems -/

/-- C7: for every dataset, property name, and default value, the
single-property query returns the provided default exactly when the raw
fetched value equals the sentinel `-`, and the raw value itself
otherwise. -/
theorem spec_C7 :
    ∀ (props : PropTable) (prop : String) (default : Option String) (v s : String),
      getprop props prop = some (v, s) →
      ((v = "-" → getpropval props prop default = Except.ok default) ∧
       (v ≠ "-" → getpropval props prop default = Except.ok (some v))) := by
  intro props prop default v s h
  constructor <;> intro hv <;> simp [getpropval, h, hv]

/-- Witness for C7 at concrete property tables: a sentinel value yields the
default, a plain value is passed through. -/
theorem spec_C7_witness :
    getpropval [("mountpoint", "-", "local")] "mountpoint" (some "defval")
      = Except.ok (some "defval") ∧
    getpropval [("compression", "lz4", "local")] "compression" (some "off")
      = Except.ok (some "lz4") :=
  ⟨(spec_C7 [("mountpoint", "-", "local")] "mountpoint" (some "defval") "-" "local" rfl).1 rfl,
   (spec_C7 [("compression", "lz4", "local")] "compression" (some "off") "lz4" "local" rfl).2
     (by decide)⟩

/-- C8: a snapshot entity raises `OperationNotAllowedError` from
`snapshots()` and `snapshot(label)`, and a volume entity raises it from
`filesystems()` and `volumes()`; in each case the entity itself rejects
the call and no external command is issued. -/
theorem spec_C8 :
    ∀ (name snapname : String) (d : Option Nat) (recursive : Bool)
      (props : List (String × String)),
      dsSnapshots DsClass.snapshot name d
        = (Except.error PyErr.operationNotAllowed, []) ∧
      dsSnapshotOp DsClass.snapshot name snapname recursive props
        = (Except.error PyErr.operationNotAllowed, []) ∧
      dsFilesystems DsClass.volume name d
        = (Except.error PyErr.operationNotAllowed, []) ∧
      dsVolumes DsClass.volume name d
        = (Except.error PyErr.operationNotAllowed, []) :=
  fun _ _ _ _ _ => ⟨rfl, rfl, rfl, rfl⟩

/-- C9: equality of two dataset handles returns true iff their externally
fetched GUID property values are equal, independently of their path
strings. -/
theorem spec_C9 :
    ∀ (d1 d2 : DatasetHandle) (g1 g2 : Option String),
      dsGuid d1.props = Except.ok g1 → dsGuid d2.props = Except.ok g2 →
      ((dsEqPy d1 d2 = Except.ok true ↔ g1 = g2) ∧
       ∀ n1 n2 : String, dsEqPy ⟨n1, d1.props⟩ ⟨n2, d2.props⟩ = dsEqPy d1 d2) := by
  intro d1 d2 g1 g2 h1 h2
  constructor
  · simp [dsEqPy, h1, h2]
  · intro n1 n2
    rfl

/-- Witness for C9: two handles with different paths but the same GUID
compare equal. -/
theorem spec_C9_witness :
    dsEqPy ⟨"tank/a", [("guid", "7", "-")]⟩ ⟨"tank/b", [("guid", "7", "-")]⟩
      = Except.ok true :=
  ((spec_C9 ⟨"tank/a", [("guid", "7", "-")]⟩ ⟨"tank/b", [("guid", "7", "-")]⟩
      (some "7") (some "7") rfl rfl).1).mpr rfl

/-- C10 (implicit): when the `clones` property holds the sentinel `-`,
`ZFSSnapshot.clones()` raises (`AttributeError` from `None.split`) instead
of returning an empty list; the emptiness guard compares a list with an
empty string and never fires, so an empty-string value yields a
one-element list holding an empty name. -/
theorem spec_C10 :
    ∀ (props : PropTable) (s : String),
      (getprop props "clones" = some ("-", s) →
        snapClones props = Except.error PyErr.attributeError) ∧
      (getprop props "clones" = some ("", s) →
        snapClones props = Except.ok [""]) ∧
      (∀ (l : List String) (t : String), pyListEqStr l t = false) := by
  intro props s
  refine ⟨fun h => ?_, fun h => ?_, fun _ _ => rfl⟩
  · simp [snapClones, getpropval, h]
  · simp [snapClones, getpropval, h, pyListEqStr]
    rfl

/-- Witness for C10 at concrete property tables. -/
theorem spec_C10_witness :
    snapClones [("clones", "-", "-")] = Except.error PyErr.attributeError ∧
    snapClones [("clones", "", "-")] = Except.ok [""] :=
  ⟨(spec_C10 [("clones", "-", "-")] "-").1 rfl,
   (spec_C10 [("clones", "", "-")] "-").2.1 rfl⟩

/-- C5: on a cache miss, if the dry-run invocation fails with
`DatasetNotFoundError`, `DatasetBusyError` or `CalledProcessError`, or if
parsing the trailing numeric field of the final output line fails, the
size estimator returns 0 and propagates no error; otherwise it returns the
parsed byte count. -/
theorem spec_C5 :
    ∀ (env : Nat → InvokeResult) (key : String) (st : SnapCache),
      cacheMiss key st = true →
      ((env st.invocations = .notFound → (streamSize env key st).1 = 0) ∧
       (env st.invocations = .busy → (streamSize env key st).1 = 0) ∧
       (env st.invocations = .procError → (streamSize env key st).1 = 0) ∧
       (∀ out, env st.invocations = .ok out → parseStreamOut out = none →
         (streamSize env key st).1 = 0) ∧
       (∀ out n, env st.invocations = .ok out → parseStreamOut out = some n →
         (streamSize env key st).1 = n)) := by
  intro env key st hmiss
  cases hc : st.cache with
  | none =>
    have h := streamSizeCore_spec env key ⟨some [], st.invocations⟩
    simpa [streamSize, hc] using h
  | some c =>
    have hlk : List.lookup key c = none := by
      simpa [cacheMiss, hc, Option.isNone_iff_eq_none] using hmiss
    have h := streamSizeCore_spec env key ⟨some (dictSet c key 0), st.invocations⟩
    simpa [streamSize, hc, hlk] using h

/-- Witness for C5: a failing invocation on a fresh instance yields 0. -/
theorem spec_C5_witness :
    (streamSize (fun _ => InvokeResult.notFound) "None" initSnap).1 = 0 :=
  (spec_C5 (fun _ => InvokeResult.notFound) "None" initSnap rfl).1 rfl

/-- C1: the `zfs promote` command is never reached.  When the dataset has
no origin (sentinel or empty value) `promote()` returns after the single
origin query; when an origin exists, the comparison
`self.origin() == None` dispatches to `ZFSDataset.__eq__`, which calls
`.guid()` on `None` and raises, so `promote()` raises an error on every
dataset that has an origin, contradicting the claim that the promote
invocation completes without raising. -/
theorem spec_C1 :
    (∀ (self : DatasetHandle) (resolver : String → PropTable),
      ["zfs", "promote", self.name] ∉ (promoteRun self resolver).2) ∧
    (∀ (self : DatasetHandle) (resolver : String → PropTable) (v s : String),
      List.lookup "origin" self.props = some (v, s) → v ≠ "-" → v ≠ "" →
      ∃ e, (promoteRun self resolver).1 = Except.error e) ∧
    (∀ (self : DatasetHandle) (resolver : String → PropTable) (s : String),
      List.lookup "origin" self.props = some ("-", s) →
      promoteRun self resolver = (Except.ok (), [findpropsCmd "origin" self.name])) ∧
    promoteRun ⟨"tank/clone", [("origin", "tank/ds@snap1", "-")]⟩
        (fun n => if n = "tank/ds@snap1"
                  then [("type", "filesystem", "-"), ("guid", "123", "-")] else [])
      = (Except.error PyErr.attributeError,
         [findpropsCmd "origin" "tank/clone", findpropsCmd "type" "tank/ds@snap1",
          findpropsCmd "guid" "tank/ds@snap1"]) := by
  refine ⟨?_, ?_, ?_, by rfl⟩
  · intro self resolver hmem
    unfold promoteRun at hmem
    repeat' split at hmem
    all_goals
      simp only [List.mem_cons, List.not_mem_nil, or_false] at hmem
    all_goals try casesm* _ ∨ _
    all_goals exact promoteCmd_ne_findprops _ _ _ (by assumption)
  · intro self resolver v s h hv hv2
    have hg : getpropval self.props "origin" none = Except.ok (some v) := by
      simp [getpropval, getprop, h, hv]
    cases h1 : List.lookup "type" (resolver v) with
    | none => exact ⟨PyErr.keyError, by simp [promoteRun, hg, hv2, h1]⟩
    | some ts =>
      obtain ⟨t, s2⟩ := ts
      by_cases ht : (decide (t = "volume") || decide (t = "filesystem") || decide (t = "snapshot")) = true
      · cases h2 : getpropval (resolver v) "guid" none with
        | error e => exact ⟨e, by simp [promoteRun, hg, hv2, h1, ht, h2]⟩
        | ok g => exact ⟨PyErr.attributeError, by simp [promoteRun, hg, hv2, h1, ht, h2]⟩
      · exact ⟨PyErr.valueError, by simp [promoteRun, hg, hv2, h1, ht]⟩
  · intro self resolver s h
    simp [promoteRun, getpropval, getprop, h]

/-- Witness for C1: a dataset with origin `tank/ds@snap1` makes
`promote()` raise; a dataset whose origin property is the sentinel makes
it return after the single origin query. -/
theorem spec_C1_witness :
    (∃ e, (promoteRun ⟨"tank/clone", [("origin", "tank/ds@snap1", "-")]⟩
        (fun _ => [])).1 = Except.error e) ∧
    promoteRun ⟨"tank/fs", [("origin", "-", "-")]⟩ (fun _ => [])
      = (Except.ok (), [findpropsCmd "origin" "tank/fs"]) :=
  ⟨spec_C1.2.1 ⟨"tank/clone", [("origin", "tank/ds@snap1", "-")]⟩ (fun _ => [])
      "tank/ds@snap1" "-" rfl (by decide) (by decide),
   spec_C1.2.2.1 ⟨"tank/fs", [("origin", "-", "-")]⟩ (fun _ => []) "-" rfl⟩

/-- The send-side compression chunk is non-empty exactly when the selected
vector is truthy and the send is not raw. -/
lemma sendCompressChunk_ne_nil_iff (a b : Option Endpoint) (raw : Bool) :
    sendCompressChunk a b raw ≠ [] ↔
      (pyTruthyList (sendCompressSelect a b) && !raw) = true := by
  unfold sendCompressChunk
  cases hs : sendCompressSelect a b with
  | none => cases raw <;> simp [pyTruthyList]
  | some l => cases l <;> cases raw <;> simp [pyTruthyList]

/-- The receive-side decompression chunk is non-empty exactly when the
selected vector is truthy and the send is not raw. -/
lemma recvDecompChunk_ne_nil_iff (a b : Option Endpoint) (raw : Bool) :
    recvDecompChunk a b raw ≠ [] ↔
      (pyTruthyList (recvDecompressSelect a b) && !raw) = true := by
  unfold recvDecompChunk
  cases hs : recvDecompressSelect a b with
  | none => cases raw <;> simp [pyTruthyList]
  | some l => cases l <;> cases raw <;> simp [pyTruthyList]

/-- The code's compression condition coincides with the amended claim-side
condition. -/
lemma sendSelect_truthy_eq_amended (a b : Option Endpoint) (raw : Bool) :
    (pyTruthyList (sendCompressSelect a b) && !raw) = claimC2AmendedCond a b raw := by
  cases a with
  | none =>
    cases b <;> simp [sendCompressSelect, claimC2AmendedCond, pyTruthyList, Bool.and_comm]
  | some s =>
    cases b with
    | none => simp [sendCompressSelect, claimC2AmendedCond, Bool.and_comm]
    | some d =>
      by_cases hcd : s.compress = d.compress <;>
        simp [sendCompressSelect, claimC2AmendedCond, hcd, pyTruthyList, Bool.and_comm]

/-- The code's decompression condition coincides with the amended
claim-side condition. -/
lemma recvSelect_truthy_eq_amended (a b : Option Endpoint) (raw : Bool) :
    (pyTruthyList (recvDecompressSelect a b) && !raw) = claimC2AmendedCondD a b raw := by
  cases a with
  | none =>
    cases b <;> simp [recvDecompressSelect, claimC2AmendedCondD, pyTruthyList, Bool.and_comm]
  | some s =>
    cases b with
    | none => simp [recvDecompressSelect, claimC2AmendedCondD, Bool.and_comm]
    | some d =>
      by_cases hcd : s.decompress = d.decompress <;>
        simp [recvDecompressSelect, claimC2AmendedCondD, hcd, pyTruthyList, Bool.and_comm]

/-- C2 counterexample: local source, remote destination with compression
vector `zstd`, raw false.  The built source pipeline contains the
compression stage `["zstd"]` (and the destination pipeline its mirror)
although the claim's condition — both endpoints' compression vectors
non-empty and equal — is false, since the local endpoint has no vector. -/
theorem spec_C2_counterexample :
    sendPipeline "tank/fs@snap" (some ⟨some ["zstd"], some ["zstd", "-d"], false, false⟩)
        none none false false false false false 0 true false false
      = [["zfs", "send", "tank/fs@snap"], ["zstd"]] ∧
    ["zstd"] ∈ sendPipeline "tank/fs@snap"
        (some ⟨some ["zstd"], some ["zstd", "-d"], false, false⟩)
        none none false false false false false 0 true false false ∧
    claimC2Cond (some ⟨some ["zstd"], some ["zstd", "-d"], false, false⟩) none false
      = false ∧
    receivePipeline "tank/dst" (some ⟨some ["zstd"], some ["zstd", "-d"], false, false⟩)
        none false false false false 0 false false
      = [["zstd", "-d"], ["zfs", "receive", "tank/dst"]] ∧
    claimC2CondD (some ⟨some ["zstd"], some ["zstd", "-d"], false, false⟩) none false
      = false :=
  ⟨by decide, by decide, by decide, by decide, by decide⟩

/-- C2 amended: the compression stage is the last segment of the source
pipeline and is present iff raw is false and the effective vector
(common vector when both endpoints are remote and agree, the single remote
endpoint's vector when exactly one is remote, nothing otherwise) is
non-empty; when present it is exactly the selected vector; two remote
endpoints with differing vectors yield no compression stage and no error;
the destination pipeline carries the mirroring decompression stage under
the mirrored condition. -/
theorem spec_C2_amended :
    (∀ (a b : Option Endpoint) (raw : Bool),
      sendCompressChunk a b raw ≠ [] ↔ claimC2AmendedCond a b raw = true) ∧
    (∀ (a b : Option Endpoint) (raw : Bool) (v : List String),
      sendCompressChunk a b raw = [v] → sendCompressSelect a b = some v) ∧
    (∀ (s d : Endpoint) (raw : Bool), s.compress ≠ d.compress →
      sendCompressChunk (some s) (some d) raw = []) ∧
    (∀ (a b : Option Endpoint) (raw : Bool),
      recvDecompChunk a b raw ≠ [] ↔ claimC2AmendedCondD a b raw = true) ∧
    (∀ (selfName : String) (a b : Option Endpoint) (base : Option String)
       (inter repl props dedup raw : Bool) (size : Int) (atty lMb lPv : Bool),
      sendPipeline selfName a b base inter repl props dedup raw size atty lMb lPv
        = sendPreCompress selfName a b base inter repl props dedup raw size atty lMb lPv
          ++ sendCompressChunk a b raw) ∧
    (∀ (name : String) (a b : Option Endpoint) (an ap f nm : Bool) (size : Int)
       (raw lMb : Bool),
      receivePipeline name a b an ap f nm size raw lMb
        = recvMbufChunk a b lMb size ++ recvDecompChunk a b raw
          ++ [zfsReceiveCmd name an ap f nm]) := by
  refine ⟨?_, ?_, ?_, ?_, fun _ _ _ _ _ _ _ _ _ _ _ _ _ => rfl,
          fun _ _ _ _ _ _ _ _ _ _ => rfl⟩
  · intro a b raw
    rw [sendCompressChunk_ne_nil_iff, sendSelect_truthy_eq_amended]
  · intro a b raw v h
    unfold sendCompressChunk at h
    cases hs : sendCompressSelect a b with
    | none => rw [hs] at h; cases raw <;> simp at h
    | some l =>
      rw [hs] at h
      cases l with
      | nil => cases raw <;> simp at h
      | cons c cs => cases raw <;> simp_all
  · intro s d raw h
    simp [sendCompressChunk, sendCompressSelect, h]
  · intro a b raw
    rw [recvDecompChunk_ne_nil_iff, recvSelect_truthy_eq_amended]

/-- Witness for C2 amended: two remote endpoints with differing
compression vectors produce no compression stage (and no error). -/
theorem spec_C2_witness :
    sendCompressChunk (some ⟨some ["zstd"], none, false, false⟩)
        (some ⟨some ["lz4"], none, false, false⟩) false = [] :=
  spec_C2_amended.2.2.1 ⟨some ["zstd"], none, false, false⟩
    ⟨some ["lz4"], none, false, false⟩ false (by decide)

/-- C3 counterexample: a local-to-local pipeline at exactly 1 MiB with both
tools available.  The built source pipeline is generation, then buffering
(`mbuffer`, index 1), then metering (`pv`, index 2) — not the claimed
order with metering before buffering. -/
theorem spec_C3_counterexample :
    sendPipeline "tank@s" none none none false false false false false 1048576 true true true
      = [["zfs", "send", "tank@s"], mbufferCmd 1, pvCmdFull 1048576 true] ∧
    (sendPipeline "tank@s" none none none false false false false false 1048576
        true true true)[1]? = some (mbufferCmd 1) ∧
    (sendPipeline "tank@s" none none none false false false false false 1048576
        true true true)[2]? = some (pvCmdFull 1048576 true) ∧
    sendPipeline "tank@s" none none none false false false false false 1048576 true true true
      ≠ [["zfs", "send", "tank@s"], pvCmdFull 1048576 true, mbufferCmd 1] :=
  ⟨by decide, by decide, by decide, by decide⟩

/-- C3 amended: whenever both optional source stages are present, the
buffering stage precedes the metering stage; the full source stage order
is generation, then buffering, then metering, then compression. -/
theorem spec_C3_amended :
    ∀ (selfName : String) (a b : Option Endpoint) (base : Option String)
      (inter repl props dedup raw : Bool) (size : Int) (atty lMb lPv : Bool),
      sendMbufCond a lMb size = true → sendPvCond a lPv size = true →
      sendPipeline selfName a b base inter repl props dedup raw size atty lMb lPv
        = [zfsSendCmd selfName base inter repl props dedup raw,
           mbufferCmd (mbuffSize size (isRemote a b)),
           pvCmdFull size atty] ++ sendCompressChunk a b raw := by
  intro selfName a b base inter repl props dedup raw size atty lMb lPv h1 h2
  simp [sendPipeline, sendPreCompress, sendMbufChunk, sendPvChunk, h1, h2]

/-- Witness for C3 amended at a concrete input with both stages present. -/
theorem spec_C3_witness :
    sendPipeline "tank@s" none none none false false false false false 2097152 true true true
      = [zfsSendCmd "tank@s" none false false false false false,
         mbufferCmd 2, pvCmdFull 2097152 true] := by
  have h := spec_C3_amended "tank@s" none none none false false false false false
    2097152 true true true (by decide) (by decide)
  rw [h]
  decide

/-- C6: below 1 MiB the metering and buffering stages are omitted from
both pipelines regardless of tool availability; an included buffering
stage carries a memory size of `clamp(size div 1 MiB, 1, cap)` MiB with
cap 256 for a remote transfer and 512 for a local one (destination-side
buffering exists only on remote transfers, hence cap 256 there). -/
theorem spec_C6 :
    ∀ (selfName name : String) (a b : Option Endpoint) (base : Option String)
      (inter repl props dedup raw : Bool) (size : Int)
      (atty lMb lPv an ap f nm : Bool),
      (size < 1048576 →
        sendPipeline selfName a b base inter repl props dedup raw size atty lMb lPv
          = [zfsSendCmd selfName base inter repl props dedup raw]
            ++ sendCompressChunk a b raw ∧
        receivePipeline name a b an ap f nm size raw lMb
          = recvDecompChunk a b raw ++ [zfsReceiveCmd name an ap f nm]) ∧
      (sendMbufCond a lMb size = true →
        sendMbufChunk a b lMb size
          = [mbufferCmd
              (specClamp (Int.fdiv size 1048576) 1 (if isRemote a b then 256 else 512))]) ∧
      (recvMbufCond a b lMb size = true →
        recvMbufChunk a b lMb size
          = [mbufferCmd (specClamp (Int.fdiv size 1048576) 1 256)]) := by
  intro selfName name a b base inter repl props dedup raw size atty lMb lPv an ap f nm
  refine ⟨fun hlt => ?_, fun h => ?_, fun h => ?_⟩
  · have hb : decide (1048576 ≤ size) = false :=
      decide_eq_false_iff_not.mpr (not_le.mpr hlt)
    constructor
    · simp [sendPipeline, sendPreCompress, sendMbufChunk, sendPvChunk, sendMbufCond,
            sendPvCond, hb]
    · simp [receivePipeline, recvMbufChunk, recvMbufCond, hb]
  · simp [sendMbufChunk, h, mbuffSize, specClamp]
  · have hrem : (a.isSome || b.isSome) = true := by
      have h2 := h
      simp only [recvMbufCond, Bool.and_eq_true] at h2
      exact h2.1.1
    simp [recvMbufChunk, h, mbuffSize, specClamp, isRemote, hrem]

/-- Witness for C6: a 500000-byte local transfer omits both optional
stages; a 10 MiB local send buffers with 10 MiB of memory. -/
theorem spec_C6_witness :
    sendPipeline "tank@s" none none none false false false false false 500000 true true true
      = [["zfs", "send", "tank@s"]] ∧
    sendMbufChunk none none true 10485760 = [mbufferCmd 10] := by
  constructor
  · have h := (spec_C6 "tank@s" "x" none none none false false false false false
      500000 true true true false false false false).1 (by decide)
    rw [h.1]
    decide
  · have h := (spec_C6 "x" "x" none none none false false false false false
      10485760 true true true false false false false).2.1 (by decide)
    rw [h]
    decide
